import Mathlib

set_option maxRecDepth 40000

/-!
Verification of the Comunicado Gmail OAuth2 setup script (`setup_gmail.py`).

The development shallowly embeds the script: the redirect Listener
(`CallbackHandler.do_GET`, the serve loop of `start_callback_server`) and the
Authorization Orchestrator (`main`) become pure Lean functions over explicit
state and an environment recording the external inputs (client-secrets load result,
the shared `auth_code`/`server_stopped` variables as observed by the waiting
loop, the token-endpoint response, and the UTC clock).  Strings are modelled
by their code-point sequences (Python's `str`), bytes by `Nat < 256`,
wall-clock time by whole seconds since the Unix epoch.
-/

/-- Python's `needle in haystack` prefix step: `needle` begins `hay`. -/
def strHasPre : List Char → List Char → Bool
  | [], _ => true
  | _ :: _, [] => false
  | a :: as, b :: bs => a == b && strHasPre as bs

/-- Python's substring test `needle in haystack` over code points. -/
def strHasSub (needle : List Char) : List Char → Bool
  | [] => strHasPre needle []
  | c :: rest => strHasPre needle (c :: rest) || strHasSub needle rest

/-- Python `needle in hay` for `str` operands, as used by
`'/oauth/callback' in self.path` (line 34 of the source). -/
def pyContains (hay needle : String) : Bool :=
  strHasSub needle.data hay.data

/-- Python slice `s[:n]` (by code points). -/
def pyTake (s : String) (n : Nat) : String :=
  String.mk (s.data.take n)

/-- Python `qs.split(sep)` for a one-character separator: always returns at
least one (possibly empty) field. -/
def splitAmp : List Char → List (List Char)
  | [] => [[]]
  | c :: rest =>
    if c = '&' then [] :: splitAmp rest
    else
      match splitAmp rest with
      | [] => [[c]]
      | g :: gs => (c :: g) :: gs

/-- Python `name_value.split('=', 1)`: `none` when no `'='` occurs, otherwise
the part before and the part after the first `'='`. -/
def splitFirstEq : List Char → Option (List Char × List Char)
  | [] => none
  | c :: rest =>
    if c = '=' then some ([], rest)
    else (splitFirstEq rest).map fun p => (c :: p.1, p.2)

/-- Hexadecimal digit value, as accepted by `urllib.parse.unquote`. -/
def hexVal (c : Char) : Option Nat :=
  if '0' ≤ c ∧ c ≤ '9' then some (c.toNat - 48)
  else if 'A' ≤ c ∧ c ≤ 'F' then some (c.toNat - 55)
  else if 'a' ≤ c ∧ c ≤ 'f' then some (c.toNat - 87)
  else none

/-- Percent-decoding of `urllib.parse.unquote`, modelled at byte granularity
(each valid `%XX` yields the code point of that byte; invalid escapes are
kept verbatim, as in CPython). -/
def pctDecode : List Char → List Char
  | '%' :: a :: b :: rest =>
    match hexVal a, hexVal b with
    | some hi, some lo => Char.ofNat (hi * 16 + lo) :: pctDecode rest
    | _, _ => '%' :: pctDecode (a :: b :: rest)
  | c :: rest => c :: pctDecode rest
  | [] => []

/-- `urllib.parse.unquote(x.replace('+', ' '))`, the per-field decoding done
inside `parse_qsl`. -/
def unq (cs : List Char) : List Char :=
  pctDecode (cs.map fun c => if c = '+' then ' ' else c)

/-- `urllib.parse.parse_qsl` with its default `keep_blank_values=False`:
fields are split on `'&'`; a field without `'='` or with an empty value is
dropped; names and values are plus- and percent-decoded. -/
def parse_qsl (qs : String) : List (String × String) :=
  (splitAmp qs.data).filterMap fun nv =>
    match splitFirstEq nv with
    | none => none
    | some (n, v) =>
      if v = [] then none
      else some (String.mk (unq n), String.mk (unq v))

/-- `params[k][0]` together with the membership test `k in params` of
`urllib.parse.parse_qs`: the value of the first field named `k`, if any. -/
def firstParam (ps : List (String × String)) (k : String) : Option String :=
  match ps with
  | [] => none
  | p :: rest => if p.1 = k then some p.2 else firstParam rest k

/-- Characters of `cs` strictly before the first occurrence of `sep`. -/
def dropFrom (sep : Char) : List Char → List Char
  | [] => []
  | c :: rest => if c = sep then [] else c :: dropFrom sep rest

/-- Characters of `cs` strictly after the first occurrence of `sep`. -/
def afterFirst (sep : Char) : List Char → Option (List Char)
  | [] => none
  | c :: rest => if c = sep then some rest else afterFirst sep rest

/-- `urllib.parse.urlparse(url).query` for an origin-form request target:
the fragment (everything from the first `'#'`) is removed first, then the
query is everything after the first `'?'` of the remainder. -/
def urlQuery (url : String) : String :=
  match afterFirst '?' (dropFrom '#' url.data) with
  | some q => String.mk q
  | none => ""

/-- `urllib.parse.urlparse(url).path` for an origin-form request target
without `';'` parameters: the part before the query and fragment. -/
def urlPathOnly (url : String) : String :=
  String.mk (dropFrom '?' (dropFrom '#' url.data))

/-- The two module-level mutable variables `auth_code` and `server_stopped`
(lines 27–28) shared between the handler thread and `main`. -/
structure HandlerState where
  auth_code : Option String
  server_stopped : Bool
deriving DecidableEq, Repr

/-- An HTTP response as produced by the handler: the status passed to
`send_response` and the HTML body written to the socket, if any. -/
structure HttpResponse where
  status : Nat
  body : Option String
deriving DecidableEq, Repr

/-- The success page written on a `code` callback (lines 47–56). -/
def successHtml : String :=
  "\n                <html>\n                <head><title>Authorization Successful</title></head>\n                <body style=\"font-family: Arial, sans-serif; text-align: center; padding: 50px;\">\n                    <h1 style=\"color: green;\">✅ Authorization Successful!</h1>\n                    <p>You can now close this browser window and return to the terminal.</p>\n                    <p>Comunicado will complete the setup automatically.</p>\n                </body>\n                </html>\n                "

/-- Text of the failure page before the interpolated error (lines 66–71). -/
def failHtmlPre : String :=
  "\n                <html>\n                <head><title>Authorization Failed</title></head>\n                <body style=\"font-family: Arial, sans-serif; text-align: center; padding: 50px;\">\n                    <h1 style=\"color: red;\">❌ Authorization Failed</h1>\n                    <p>Error: "

/-- Text of the failure page after the interpolated error (lines 71–75). -/
def failHtmlPost : String :=
  "</p>\n                    <p>Please close this window and try again.</p>\n                </body>\n                </html>\n                "

/-- The failure page for a given provider error string, from the f-string of
lines 66–75. -/
def failureHtml (error : String) : String :=
  failHtmlPre ++ error ++ failHtmlPost

/-- `CallbackHandler.do_GET` (lines 31–80): given the request target
`self.path` and the current shared state, returns the new shared state and
the response sent, if any.  Note that the dispatch is the substring test
`'/oauth/callback' in self.path`, and that a matching request carrying
neither `code` nor `error` falls through all branches and sends no response
at all. -/
def do_GET (path : String) (st : HandlerState) : HandlerState × Option HttpResponse :=
  if pyContains path "/oauth/callback" then
    let params := parse_qsl (urlQuery path)
    match firstParam params "code" with
    | some code =>
      ({ auth_code := some code, server_stopped := true }, some ⟨200, some successHtml⟩)
    | none =>
      match firstParam params "error" with
      | some err =>
        ({ auth_code := st.auth_code, server_stopped := true },
         some ⟨400, some (failureHtml err)⟩)
      | none => (st, none)
  else (st, some ⟨404, none⟩)

/-- The serve loop of `start_callback_server` (lines 93–95): handle inbound
requests one at a time while `server_stopped` is false. -/
def serveRequests : List String → HandlerState → HandlerState × List (Option HttpResponse)
  | [], st => (st, [])
  | p :: ps, st =>
    if st.server_stopped then (st, [])
    else
      let r := do_GET p st
      let rest := serveRequests ps r.1
      (rest.1, r.2 :: rest.2)

/-- `start_callback_server` (lines 86–95).  Binding `TCPServer` to a port
already in use raises `OSError` inside the daemon thread: the Listener then
serves nothing and never touches the shared state, modelled by `none`. -/
def start_callback_server (portInUse : Bool) (requests : List String)
    (st : HandlerState) : Option (HandlerState × List (Option HttpResponse)) :=
  if portInUse then none else some (serveRequests requests st)

/-- Outcome of the Orchestrator's waiting loop (lines 156–166): either the
timeout fired, or the loop exited because `auth_code` was set or
`server_stopped` became true, carrying the `auth_code` value it saw. -/
inductive WaitResult
  | timedOut
  | gotResult (code : Option String)
deriving DecidableEq, Repr

/-- One-second-granularity embedding of the waiting loop
`while auth_code is None and not server_stopped` of lines 160–166.
`obs n` is the shared `(auth_code, server_stopped)` pair as read at the
`n`-th iteration (≈ `n` seconds after `start_time`); the loop exits with the
observed `auth_code` as soon as a result is visible, and returns the timeout
outcome at the first pending read with `timeout < elapsed`
(`time.time() - start_time > timeout`).  The fuel argument only bounds the
recursion; `awaitResult` supplies enough fuel that it is never exhausted. -/
def awaitLoop (obs : Nat → Option String × Bool) (timeout : Nat) :
    Nat → Nat → WaitResult
  | 0, _ => .timedOut
  | fuel + 1, elapsed =>
    if (obs elapsed).1.isSome || (obs elapsed).2 then .gotResult (obs elapsed).1
    else if timeout < elapsed then .timedOut
    else awaitLoop obs timeout fuel (elapsed + 1)

/-- The waiting loop started at `elapsed = 0`; `timeout + 2` units of fuel
cover every reachable iteration (the loop stops by `elapsed = timeout + 1`
at the latest). -/
def awaitResult (obs : Nat → Option String × Bool) (timeout : Nat) : WaitResult :=
  awaitLoop obs timeout (timeout + 2) 0

/-- The base64 alphabet of RFC 4648 used by `base64.b64encode`. -/
def b64Alphabet : List Char :=
  "ABCDEFGHIJKLMNOPQRSTUVWXYZabcdefghijklmnopqrstuvwxyz0123456789+/".data

/-- Character for a six-bit group. -/
def sextetChar (n : Nat) : Char :=
  b64Alphabet.getD n 'A'

/-- Index of a character in a list, `64` when absent (used to invert
`sextetChar` on alphabet characters). -/
def idxOf : List Char → Char → Nat
  | [], _ => 64
  | a :: as, c => if a = c then 0 else idxOf as c + 1

/-- Six-bit value of a base64 alphabet character. -/
def charSextet (c : Char) : Nat :=
  idxOf b64Alphabet c

/-- `base64.b64encode` over a byte list: groups of three bytes become four
alphabet characters; a final group of one or two bytes is padded with
`'='`. -/
def b64encodeBytes : List Nat → List Char
  | [] => []
  | [b1] =>
    [sextetChar (b1 / 4), sextetChar (b1 % 4 * 16), '=', '=']
  | [b1, b2] =>
    [sextetChar (b1 / 4), sextetChar (b1 % 4 * 16 + b2 / 16),
     sextetChar (b2 % 16 * 4), '=']
  | b1 :: b2 :: b3 :: rest =>
    sextetChar (b1 / 4) :: sextetChar (b1 % 4 * 16 + b2 / 16) ::
    sextetChar (b2 % 16 * 4 + b3 / 64) :: sextetChar (b3 % 64) ::
    b64encodeBytes rest

/-- Reassemble the bytes of a final four-character base64 block, honouring
`'='` padding. -/
def decFinal (c1 c2 c3 c4 : Char) : List Nat :=
  let s1 := charSextet c1
  let s2 := charSextet c2
  let s3 := charSextet c3
  let s4 := charSextet c4
  if c4 = '=' then
    if c3 = '=' then [s1 * 4 + s2 / 16]
    else [s1 * 4 + s2 / 16, s2 % 16 * 16 + s3 / 4]
  else [s1 * 4 + s2 / 16, s2 % 16 * 16 + s3 / 4, s3 % 4 * 64 + s4]

/-- Reassemble the three bytes of a non-final four-character block. -/
def decBlock (c1 c2 c3 c4 : Char) : List Nat :=
  let s1 := charSextet c1
  let s2 := charSextet c2
  let s3 := charSextet c3
  let s4 := charSextet c4
  [s1 * 4 + s2 / 16, s2 % 16 * 16 + s3 / 4, s3 % 4 * 64 + s4]

/-- Standard base64 decoding (the inverse reading of the stored text):
blocks of four characters, `'='` padding allowed in the last block only;
inputs that are not a whole number of blocks are rejected. -/
def b64decodeChars : List Char → Option (List Nat)
  | [] => some []
  | [c1, c2, c3, c4] => some (decFinal c1 c2 c3 c4)
  | c1 :: c2 :: c3 :: c4 :: rest =>
    (b64decodeChars rest).map fun bs => decBlock c1 c2 c3 c4 ++ bs
  | _ => none

/-- UTF-8 encoding of one code point (Python's `str.encode()` per
character). -/
def utf8Bytes (c : Char) : List Nat :=
  if c.toNat < 128 then [c.toNat]
  else if c.toNat < 2048 then
    [192 + c.toNat / 64, 128 + c.toNat % 64]
  else if c.toNat < 65536 then
    [224 + c.toNat / 4096, 128 + c.toNat / 64 % 64, 128 + c.toNat % 64]
  else
    [240 + c.toNat / 262144, 128 + c.toNat / 4096 % 64, 128 + c.toNat / 64 % 64,
     128 + c.toNat % 64]

/-- Python `s.encode()` — the UTF-8 bytes of a string. -/
def utf8Encode (s : String) : List Nat :=
  s.data.flatMap utf8Bytes

/-- `base64.b64encode(s.encode()).decode()` (lines 238, 245, 252–253): the
stored text for a credential string. -/
def b64str (s : String) : String :=
  String.mk (b64encodeBytes (utf8Encode s))

/-- Proleptic Gregorian date for a day count since 1970-01-01 (the civil
calendar underlying `datetime`). -/
def civilFromDays (z0 : Nat) : Nat × Nat × Nat :=
  let z := z0 + 719468
  let era := z / 146097
  let doe := z % 146097
  let yoe := (doe - doe / 1460 + doe / 36524 - doe / 146096) / 365
  let y := yoe + era * 400
  let doy := doe - (365 * yoe + yoe / 4 - yoe / 100)
  let mp := (5 * doy + 2) / 153
  let d := doy - (153 * mp + 2) / 5 + 1
  let m := if mp < 10 then mp + 3 else mp - 9
  (if m ≤ 2 then y + 1 else y, m, d)

/-- Two-digit zero-padded decimal field. -/
def pad2 (n : Nat) : String :=
  if n < 10 then "0" ++ toString n else toString n

/-- Four-digit zero-padded decimal field. -/
def pad4 (n : Nat) : String :=
  if n < 10 then "000" ++ toString n
  else if n < 100 then "00" ++ toString n
  else if n < 1000 then "0" ++ toString n
  else toString n

/-- `datetime.isoformat()` for a UTC instant given in whole seconds since
the epoch (the model keeps time at second granularity, so no fractional
part is rendered). -/
def isoformat (t : Nat) : String :=
  let days := t / 86400
  let secs := t % 86400
  let ymd := civilFromDays days
  pad4 ymd.1 ++ "-" ++ pad2 ymd.2.1 ++ "-" ++ pad2 ymd.2.2 ++ "T" ++
  pad2 (secs / 3600) ++ ":" ++ pad2 (secs % 3600 / 60) ++ ":" ++ pad2 (secs % 60)

/-- Configuration constants of lines 21–24. -/
def CLIENT_SECRET_FILE : String :=
  "/home/olafkfreund/client_secret_771552156772-oamkti00mbglr2o0k7ejo4spgldgeu0i.apps.googleusercontent.com.json"

/-- The fixed configuration directory (line 22). -/
def CONFIG_DIR : String := "/home/olafkfreund/.config/comunicado"

/-- The fixed redirect port (line 23). -/
def REDIRECT_PORT : Nat := 8080

/-- The registered redirect URI (line 24). -/
def REDIRECT_URI : String := "http://localhost:8080/oauth/callback"

/-- The account-metadata dictionary of lines 214–229. -/
structure AccountConfig where
  account_id : String
  display_name : String
  email_address : String
  provider : String
  imap_server : String
  imap_port : Nat
  smtp_server : String
  smtp_port : Nat
  token_expires_at : String
  scopes : List String
deriving DecidableEq, Repr

/-- The `account_config` value built at lines 214–229; only
`token_expires_at` depends on anything computed during the run. -/
def mkAccountConfig (expires_at : Nat) : AccountConfig :=
  { account_id := "gmail_olaf_loken_gmail_com"
    display_name := "Olaf Krasicki Freund"
    email_address := "olaf.loken@gmail.com"
    provider := "gmail"
    imap_server := "imap.gmail.com"
    imap_port := 993
    smtp_server := "smtp.gmail.com"
    smtp_port := 587
    token_expires_at := isoformat expires_at ++ "Z"
    scopes := ["https://mail.google.com/",
               "https://www.googleapis.com/auth/userinfo.email",
               "https://www.googleapis.com/auth/userinfo.profile"] }

/-- Result of loading the client-secrets file (lines 102–119):
`FileNotFoundError`, a `KeyError` for a missing field, or the two
credential strings. -/
inductive ClientSecretLoad
  | missing
  | badFormat (key : String)
  | ok (client_id client_secret : String)
deriving DecidableEq, Repr

/-- The parsed JSON body returned by the token endpoint, restricted to the
fields the script reads (lines 194–202). -/
structure TokenResponseJson where
  access_token : Option String
  refresh_token : Option String
  expires_in : Option Nat
  error : Option String
  error_description : Option String
deriving DecidableEq, Repr

/-- Outcome of `requests.post(...)` plus `raise_for_status` and `.json()`
(lines 186–192): a transport/HTTP failure (`requests.RequestException`) or a
parsed body. -/
inductive ExchangeResult
  | transportError (msg : String)
  | response (r : TokenResponseJson)
deriving DecidableEq, Repr

/-- External inputs of one run of `main`: the client-secrets load result,
the shared Listener state as observed by the waiting loop at each second,
the token-endpoint result, and the UTC clock (seconds since the epoch) at
the expiry computation of line 211. -/
structure Env where
  clientSecrets : ClientSecretLoad
  obs : Nat → Option String × Bool
  exchange : ExchangeResult
  nowUtc : Nat

/-- Ordered filesystem side effects of `main` other than file writes. -/
inductive Event
  | madeConfigDir
  | startedListener
  | openedBrowser
deriving DecidableEq, Repr

/-- Contents written to an output file: the account-config JSON document or
the text of an encoded credential. -/
inductive FileContent
  | config (c : AccountConfig)
  | text (s : String)
deriving DecidableEq, Repr

/-- Observable outcome of one run of `main`: the return value of lines
116/119/164/170/192/198/269, the `print`ed lines in order, the output files
written with their contents, the ordered directory/thread/browser events,
the in-memory account config if one was built, and whether the run died on
an uncaught exception. -/
structure RunOutcome where
  returnCode : Nat
  messages : List String
  filesWritten : List (String × FileContent)
  trace : List Event
  configDirCreated : Bool
  accountConfig : Option AccountConfig
  crashed : Bool

/-- Terminal lines printed by `main` from line 98 up to the waiting loop
(the `input()` prompt of line 143 is not a `print` and is omitted; the
"Started callback server" line is printed by the Listener thread, not by
`main`). -/
def preludeMsgs (client_id : String) : List String :=
  ["🔧 Gmail OAuth2 Setup for Comunicado",
   "====================================\n",
   "✅ Found Google OAuth2 credentials",
   "   Client ID: " ++ pyTake client_id 20 ++ "...",
   "",
   "🚀 Starting OAuth2 authorization process...",
   "   1. A callback server will start on localhost:8080",
   "   2. Your browser will open to Google's authorization page",
   "   3. Log in and grant permissions",
   "   4. You'll be redirected back automatically",
   "",
   "🌐 Opening browser for authorization...",
   "⏳ Waiting for authorization...",
   "   (This will timeout in 300 seconds)"]

/-- `os.path.join(CONFIG_DIR, "gmail_olaf_loken_gmail_com.json")`. -/
def configPath : String := CONFIG_DIR ++ "/gmail_olaf_loken_gmail_com.json"

/-- Path of the encoded access token file. -/
def accessTokenPath : String := CONFIG_DIR ++ "/gmail_olaf_loken_gmail_com.access.token"

/-- Path of the encoded refresh token file. -/
def refreshTokenPath : String := CONFIG_DIR ++ "/gmail_olaf_loken_gmail_com.refresh.token"

/-- Path of the encoded client id file. -/
def clientIdPath : String := CONFIG_DIR ++ "/gmail_olaf_loken_gmail_com.client_id.cred"

/-- Path of the encoded client secret file. -/
def clientSecretPath : String := CONFIG_DIR ++ "/gmail_olaf_loken_gmail_com.client_secret.cred"

/-- The side-effect events of every run that passes the credential load:
`os.makedirs` (line 122) runs before the Listener thread is started (line
147), which runs before the browser is opened (line 151). -/
def okTrace : List Event :=
  [Event.madeConfigDir, Event.startedListener, Event.openedBrowser]

/-- Continuation of `main` from the waiting loop onward (lines 156–269),
parameterised by the loop's outcome and the token-endpoint result. -/
def mainAfterWait (client_id client_secret : String) (w : WaitResult)
    (exch : ExchangeResult) (now : Nat) : RunOutcome :=
  let pre := preludeMsgs client_id
  match w with
  | .timedOut =>
    { returnCode := 1,
      messages := pre ++ ["❌ Authorization timeout!", "   Please try again."],
      filesWritten := [], trace := okTrace, configDirCreated := true,
      accountConfig := none, crashed := false }
  | .gotResult none =>
    { returnCode := 1,
      messages := pre ++ ["❌ Authorization failed or was cancelled"],
      filesWritten := [], trace := okTrace, configDirCreated := true,
      accountConfig := none, crashed := false }
  | .gotResult (some code) =>
    let pre2 := pre ++
      ["✅ Got authorization code: " ++ pyTake code 10 ++ "...",
       "🔄 Exchanging code for access tokens..."]
    match exch with
    | .transportError e =>
      { returnCode := 1,
        messages := pre2 ++ ["❌ Token exchange failed: " ++ e],
        filesWritten := [], trace := okTrace, configDirCreated := true,
        accountConfig := none, crashed := false }
    | .response r =>
      match r.error with
      | some err =>
        { returnCode := 1,
          messages := pre2 ++ (["❌ Token exchange error: " ++ err] ++
            (match r.error_description with
             | some d => ["   " ++ d]
             | none => [])),
          filesWritten := [], trace := okTrace, configDirCreated := true,
          accountConfig := none, crashed := false }
      | none =>
        match r.access_token with
        | none =>
          -- `token_response['access_token']` raises an uncaught `KeyError`.
          { returnCode := 1, messages := pre2, filesWritten := [],
            trace := okTrace, configDirCreated := true,
            accountConfig := none, crashed := true }
        | some access_token =>
          let expires_in := r.expires_in.getD 3600
          let expires_at := now + expires_in
          let cfg := mkAccountConfig expires_at
          { returnCode := 0,
            messages := pre2 ++
              (["✅ Got OAuth2 tokens successfully!",
                "   Access token: " ++ pyTake access_token 20 ++ "..."] ++
               (match r.refresh_token with
                | some rt => ["   Refresh token: " ++ pyTake rt 20 ++ "..."]
                | none => []) ++
               ["",
                "✅ Account config written to: " ++ configPath,
                "✅ Access token written to: " ++ accessTokenPath] ++
               (match r.refresh_token with
                | some _ => ["✅ Refresh token written to: " ++ refreshTokenPath]
                | none => []) ++
               ["✅ OAuth2 credentials stored securely",
                "\n🎉 Gmail OAuth2 setup complete!",
                "   Your account should now work properly in Comunicado",
                "   Try running: cargo run --bin comunicado"]),
            filesWritten :=
              [(configPath, FileContent.config cfg),
               (accessTokenPath, FileContent.text (b64str access_token))] ++
              (match r.refresh_token with
               | some rt => [(refreshTokenPath, FileContent.text (b64str rt))]
               | none => []) ++
              [(clientIdPath, FileContent.text (b64str client_id)),
               (clientSecretPath, FileContent.text (b64str client_secret))],
            trace := okTrace, configDirCreated := true,
            accountConfig := some cfg, crashed := false }

namespace setup_gmail

/-- `main` (lines 97–269) as a function of its external inputs. -/
def main (env : Env) : RunOutcome :=
  match env.clientSecrets with
  | .missing =>
    { returnCode := 1,
      messages := ["🔧 Gmail OAuth2 Setup for Comunicado",
                   "====================================\n",
                   "❌ Client secret file not found: " ++ CLIENT_SECRET_FILE,
                   "   Please download it from Google Cloud Console"],
      filesWritten := [], trace := [], configDirCreated := false,
      accountConfig := none, crashed := false }
  | .badFormat k =>
    { returnCode := 1,
      messages := ["🔧 Gmail OAuth2 Setup for Comunicado",
                   "====================================\n",
                   "❌ Invalid client secret file format: missing " ++ k],
      filesWritten := [], trace := [], configDirCreated := false,
      accountConfig := none, crashed := false }
  | .ok client_id client_secret =>
    mainAfterWait client_id client_secret (awaitResult env.obs 300)
      env.exchange env.nowUtc

end setup_gmail

open setup_gmail

/-! Helper lemmas. -/

/-- Concatenating strings concatenates their code-point sequences. -/
theorem string_data_append (s t : String) : (s ++ t).data = s.data ++ t.data := by
  cases s; cases t; rfl

/-- A list begins any extension of itself. -/
theorem strHasPre_append (l extra : List Char) : strHasPre l (l ++ extra) = true := by
  induction l with
  | nil => rfl
  | cons a as ih => simp [strHasPre, ih]

/-- A successful prefix check gives a successful substring check. -/
theorem strHasSub_of_pre (needle hay : List Char)
    (h : strHasPre needle hay = true) : strHasSub needle hay = true := by
  cases hay with
  | nil => simpa [strHasSub] using h
  | cons c rest => simp [strHasSub, h]

/-- A list occurs as a substring of any surrounding of itself. -/
theorem strHasSub_surround (needle pre post : List Char) :
    strHasSub needle (pre ++ (needle ++ post)) = true := by
  induction pre with
  | nil => exact strHasSub_of_pre _ _ (strHasPre_append needle post)
  | cons p ps ih => simp [strHasSub, ih]

/-- The error string is echoed verbatim inside the failure page. -/
theorem failureHtml_echoes (e : String) :
    strHasSub e.data (failureHtml e).data = true := by
  have h : (failureHtml e).data =
      failHtmlPre.data ++ (e.data ++ failHtmlPost.data) := by
    simp [failureHtml, string_data_append]
  rw [h]
  exact strHasSub_surround e.data failHtmlPre.data failHtmlPost.data

/-- `charSextet` inverts `sextetChar` on six-bit values. -/
theorem sextet_round : ∀ s : Nat, s < 64 → charSextet (sextetChar s) = s := by decide

/-- Alphabet characters are never the padding character. -/
theorem sextetChar_ne_pad : ∀ s : Nat, s < 64 → ¬(sextetChar s = '=') := by decide

/-- Encoding a nonempty byte list yields a nonempty character list. -/
theorem b64encode_ne_nil (l : List Nat) (hl : l ≠ []) : b64encodeBytes l ≠ [] := by
  match l with
  | [] => exact absurd rfl hl
  | [b1] => simp [b64encodeBytes]
  | [b1, b2] => simp [b64encodeBytes]
  | b1 :: b2 :: b3 :: rest => simp [b64encodeBytes]

/-- Base64 decoding inverts base64 encoding on byte lists. -/
theorem b64_roundtrip (bs : List Nat) (h : ∀ b ∈ bs, b < 256) :
    b64decodeChars (b64encodeBytes bs) = some bs := by
  induction bs using b64encodeBytes.induct with
  | case1 => rfl
  | case2 b1 =>
    have h1 : b1 < 256 := h b1 (by simp)
    simp only [b64encodeBytes, b64decodeChars, decFinal, if_true]
    rw [sextet_round _ (by omega), sextet_round _ (by omega)]
    simp only [Option.some.injEq, List.cons.injEq, and_true]
    omega
  | case3 b1 b2 =>
    have h1 : b1 < 256 := h b1 (by simp)
    have h2 : b2 < 256 := h b2 (by simp)
    simp only [b64encodeBytes, b64decodeChars, decFinal, if_true]
    rw [if_neg (sextetChar_ne_pad _ (by omega))]
    rw [sextet_round _ (by omega), sextet_round _ (by omega),
        sextet_round _ (by omega)]
    simp only [Option.some.injEq, List.cons.injEq, and_true]
    exact ⟨by omega, by omega⟩
  | case4 b1 b2 b3 rest ih =>
    have h1 : b1 < 256 := h b1 (by simp)
    have h2 : b2 < 256 := h b2 (by simp)
    have h3 : b3 < 256 := h b3 (by simp)
    have hrest := ih (fun b hb => h b (by simp [hb]))
    cases hr : rest with
    | nil =>
      subst hr
      simp only [b64encodeBytes, b64decodeChars, decFinal]
      rw [if_neg (sextetChar_ne_pad _ (by omega))]
      rw [sextet_round _ (by omega), sextet_round _ (by omega),
          sextet_round _ (by omega), sextet_round _ (by omega)]
      simp only [Option.some.injEq, List.cons.injEq, and_true]
      exact ⟨by omega, by omega, by omega⟩
    | cons r rs =>
      have hne : b64encodeBytes (r :: rs) ≠ [] := b64encode_ne_nil _ (by simp)
      obtain ⟨d, ds, hd⟩ := List.exists_cons_of_ne_nil hne
      rw [hr] at hrest
      simp only [b64encodeBytes]
      rw [hd]
      simp only [b64decodeChars]
      rw [← hd, hrest]
      simp only [Option.map_some', decBlock]
      rw [sextet_round _ (by omega), sextet_round _ (by omega),
          sextet_round _ (by omega), sextet_round _ (by omega)]
      simp only [Option.some.injEq, List.append_eq, List.cons_append,
        List.nil_append, List.cons.injEq, and_true]
      refine ⟨by omega, by omega, by omega⟩

/-- Every code point is below the Unicode bound. -/
theorem char_toNat_lt (c : Char) : c.toNat < 1114112 := by
  have hv : c.val.toNat.isValidChar := c.valid
  rcases hv with hv | hv
  · exact Nat.lt_trans hv (by norm_num)
  · exact hv.2

/-- UTF-8 encoding produces bytes. -/
theorem utf8Bytes_lt (c : Char) : ∀ b ∈ utf8Bytes c, b < 256 := by
  intro b hb
  have hc := char_toNat_lt c
  unfold utf8Bytes at hb
  split_ifs at hb <;>
    simp only [List.mem_cons, List.not_mem_nil, or_false] at hb <;>
    omega

/-- The UTF-8 bytes of a string are bytes. -/
theorem utf8Encode_lt (s : String) : ∀ b ∈ utf8Encode s, b < 256 := by
  intro b hb
  unfold utf8Encode at hb
  rw [List.mem_flatMap] at hb
  obtain ⟨c, _, hc⟩ := hb
  exact utf8Bytes_lt c b hc

/-- Decoding the stored credential text yields the original UTF-8 bytes. -/
theorem b64str_roundtrip (s : String) :
    b64decodeChars (b64str s).data = some (utf8Encode s) :=
  b64_roundtrip (utf8Encode s) (utf8Encode_lt s)

/-- If the shared state stays pending through the whole timeout window, the
waiting loop ends in the timeout outcome. -/
theorem awaitLoop_timedOut_of_pending (obs : Nat → Option String × Bool) (timeout : Nat)
    (h : ∀ n, n ≤ timeout + 1 → obs n = (none, false)) :
    ∀ fuel elapsed, fuel + elapsed = timeout + 2 →
      awaitLoop obs timeout fuel elapsed = .timedOut := by
  intro fuel
  induction fuel with
  | zero => intro elapsed _; rfl
  | succ f ih =>
    intro elapsed hsum
    have hobs := h elapsed (by omega)
    unfold awaitLoop
    rw [hobs]
    rw [if_neg (by decide)]
    by_cases hc : timeout < elapsed
    · rw [if_pos hc]
    · rw [if_neg hc]
      exact ih (elapsed + 1) (by omega)

/-- The Orchestrator's wait ends in the timeout outcome when nothing is
delivered within the window. -/
theorem awaitResult_timedOut_of_pending (obs : Nat → Option String × Bool) (timeout : Nat)
    (h : ∀ n, n ≤ timeout + 1 → obs n = (none, false)) :
    awaitResult obs timeout = .timedOut :=
  awaitLoop_timedOut_of_pending obs timeout h (timeout + 2) 0 (by omega)


/-! Claim theorems. -/

/-- C1 (counterexample): the claim "every GET request whose path is not the
callback path gets a 404 and leaves the result Pending" is false on the
code.  First, dispatch is a substring test: a request for
`/prefix/oauth/callback?code=stolen`, whose path component differs from the
callback path, is answered 200 and sets the result to `Code("stolen")`.
Second, a request to the exact callback path with neither `code` nor
`error` is not "treated exactly like a non-matching request": it receives
no response at all rather than a 404. -/
theorem C1_counterexample :
    (urlPathOnly "/prefix/oauth/callback?code=stolen" ≠ "/oauth/callback" ∧
     do_GET "/prefix/oauth/callback?code=stolen" ⟨none, false⟩ =
       ({ auth_code := some "stolen", server_stopped := true },
        some ⟨200, some successHtml⟩)) ∧
    do_GET "/oauth/callback" ⟨none, false⟩ = (⟨none, false⟩, none) := by
  refine ⟨⟨by decide, by decide⟩, by decide⟩

/-- C1 (amended): a GET request whose full request target does not contain
the callback path as a substring is answered 404, the shared state is
unchanged (result stays Pending, server not stopped), and the serve loop
goes on to handle the remaining requests; a request that does match but
carries neither a `code` nor an `error` parameter also leaves the state
unchanged and the server serving, but receives no response at all instead
of a 404. -/
theorem C1_nonmatching_or_malformed (path : String) (st : HandlerState)
    (ps : List String) :
    (pyContains path "/oauth/callback" = false →
      do_GET path st = (st, some ⟨404, none⟩) ∧
      (st.server_stopped = false →
        serveRequests (path :: ps) st =
          ((serveRequests ps st).1, some ⟨404, none⟩ :: (serveRequests ps st).2))) ∧
    (pyContains path "/oauth/callback" = true →
      firstParam (parse_qsl (urlQuery path)) "code" = none →
      firstParam (parse_qsl (urlQuery path)) "error" = none →
      do_GET path st = (st, none) ∧
      (st.server_stopped = false →
        serveRequests (path :: ps) st =
          ((serveRequests ps st).1, none :: (serveRequests ps st).2))) := by
  constructor
  · intro hno
    have hdo : do_GET path st = (st, some ⟨404, none⟩) := by
      unfold do_GET
      rw [hno]
      simp
    refine ⟨hdo, fun hstop => ?_⟩
    simp only [serveRequests, hstop, Bool.false_eq_true, if_false, hdo]
  · intro hyes hcode herr
    have hdo : do_GET path st = (st, none) := by
      unfold do_GET
      rw [hyes]
      simp [hcode, herr]
    refine ⟨hdo, fun hstop => ?_⟩
    simp only [serveRequests, hstop, Bool.false_eq_true, if_false, hdo]

/-- C1 (amended, witness): instance at the non-matching path "/nope" and at
the malformed callback "/oauth/callback?state=x". -/
theorem C1_nonmatching_or_malformed_witness :
    (pyContains "/nope" "/oauth/callback" = false ∧
     do_GET "/nope" ⟨none, false⟩ = (⟨none, false⟩, some ⟨404, none⟩)) ∧
    (pyContains "/oauth/callback?state=x" "/oauth/callback" = true ∧
     do_GET "/oauth/callback?state=x" ⟨none, false⟩ = (⟨none, false⟩, none)) := by
  refine ⟨⟨by decide, ?_⟩, ⟨by decide, ?_⟩⟩
  · exact ((C1_nonmatching_or_malformed "/nope" ⟨none, false⟩ []).1 (by decide)).1
  · exact ((C1_nonmatching_or_malformed "/oauth/callback?state=x" ⟨none, false⟩ []).2
      (by decide) (by decide) (by decide)).1

/-- C2 (confirmed): on a request matching the callback path, a `code`
parameter in the query yields result `Code(first value)`, a 200 response
with the confirmation page, and the stopped flag; otherwise an `error`
parameter yields `Error(first value)` (the auth code untouched), a 400
response with the failure page echoing the error verbatim, and the stopped
flag. -/
theorem C2_callback_code_error (path : String) (st : HandlerState) (c e : String) :
    pyContains path "/oauth/callback" = true →
    (firstParam (parse_qsl (urlQuery path)) "code" = some c →
      do_GET path st =
        ({ auth_code := some c, server_stopped := true },
         some ⟨200, some successHtml⟩)) ∧
    (firstParam (parse_qsl (urlQuery path)) "code" = none →
      firstParam (parse_qsl (urlQuery path)) "error" = some e →
      do_GET path st =
        ({ auth_code := st.auth_code, server_stopped := true },
         some ⟨400, some (failureHtml e)⟩) ∧
      strHasSub e.data (failureHtml e).data = true) := by
  intro hyes
  constructor
  · intro hcode
    unfold do_GET
    rw [hyes]
    simp [hcode]
  · intro hcode herr
    refine ⟨?_, failureHtml_echoes e⟩
    unfold do_GET
    rw [hyes]
    simp [hcode, herr]

/-- C2 (witness): instances at `?code=abc123` and at `?error=access_denied`. -/
theorem C2_callback_code_error_witness :
    do_GET "/oauth/callback?code=abc123" ⟨none, false⟩ =
      ({ auth_code := some "abc123", server_stopped := true },
       some ⟨200, some successHtml⟩) ∧
    (do_GET "/oauth/callback?error=access_denied" ⟨none, false⟩ =
      ({ auth_code := none, server_stopped := true },
       some ⟨400, some (failureHtml "access_denied")⟩) ∧
     strHasSub "access_denied".data (failureHtml "access_denied").data = true) := by
  constructor
  · exact (C2_callback_code_error "/oauth/callback?code=abc123" ⟨none, false⟩
      "abc123" "unused" (by decide)).1 (by decide)
  · exact (C2_callback_code_error "/oauth/callback?error=access_denied" ⟨none, false⟩
      "unused" "access_denied" (by decide)).2 (by decide) (by decide)

/-- Reduction of `main` past the credential load. -/
theorem main_ok_eq (env : Env) (cid cs : String)
    (h1 : env.clientSecrets = .ok cid cs) :
    main env = mainAfterWait cid cs (awaitResult env.obs 300) env.exchange env.nowUtc := by
  unfold main
  rw [h1]

/-- C3 (confirmed): when no request delivers a code or an error to the
callback within the 300-second window (the shared state stays Pending at
every check through the timeout), the run returns 1, prints the timeout
message, and writes no output files. -/
theorem C3_timeout_no_persistence (env : Env) (cid cs : String)
    (h1 : env.clientSecrets = .ok cid cs)
    (h2 : ∀ n, n ≤ 301 → env.obs n = (none, false)) :
    (main env).returnCode = 1 ∧
    "❌ Authorization timeout!" ∈ (main env).messages ∧
    (main env).filesWritten = [] := by
  have hw : awaitResult env.obs 300 = .timedOut :=
    awaitResult_timedOut_of_pending env.obs 300 h2
  rw [main_ok_eq env cid cs h1, hw]
  refine ⟨rfl, ?_, rfl⟩
  simp [mainAfterWait, List.mem_append]

/-- C3 (witness): the run with a never-written shared state times out. -/
theorem C3_timeout_no_persistence_witness :
    (main { clientSecrets := .ok "id" "secret", obs := fun _ => (none, false),
            exchange := .transportError "unused", nowUtc := 0 }).returnCode = 1 ∧
    "❌ Authorization timeout!" ∈
      (main { clientSecrets := .ok "id" "secret", obs := fun _ => (none, false),
              exchange := .transportError "unused", nowUtc := 0 }).messages ∧
    (main { clientSecrets := .ok "id" "secret", obs := fun _ => (none, false),
            exchange := .transportError "unused", nowUtc := 0 }).filesWritten = [] :=
  C3_timeout_no_persistence _ "id" "secret" rfl (fun _ _ => rfl)

/-- The environment of the denied-authorization counterexample run: the
Listener has handled `error=access_denied`, so the shared state observed by
the waiting loop is `(None, True)`. -/
def envDenied : Env :=
  { clientSecrets := .ok "client-id-1" "client-secret-1",
    obs := fun _ => (none, true),
    exchange := .transportError "unused", nowUtc := 0 }

/-- C4 (counterexample): with the Listener result `Error("access_denied")`
(state `(None, True)` after serving the 400 page), the Orchestrator does
fail with return 1 and writes nothing, but none of its terminal messages
contains the provider error string: `access_denied` is surfaced only by the
Listener's HTML page, not by the Orchestrator's user-visible output. -/
theorem C4_counterexample :
    serveRequests ["/oauth/callback?error=access_denied"] ⟨none, false⟩ =
      (⟨none, true⟩, [some ⟨400, some (failureHtml "access_denied")⟩]) ∧
    (main envDenied).returnCode = 1 ∧
    (main envDenied).filesWritten = [] ∧
    (main envDenied).messages.all (fun m => !(pyContains m "access_denied")) = true := by
  refine ⟨by decide, rfl, rfl, by decide⟩

/-- C4 (amended): on an `error=e` callback the Listener answers 400 with a
page echoing `e` verbatim and stops, leaving the auth code unset; the
Orchestrator, observing a stopped Listener without a code, fails with
return 1 and the generic "Authorization failed or was cancelled" message
(which does not carry `e`) and writes no output files. -/
theorem C4_denied_generic_failure (e path : String) (st : HandlerState)
    (env : Env) (cid cs : String) :
    (pyContains path "/oauth/callback" = true →
      firstParam (parse_qsl (urlQuery path)) "code" = none →
      firstParam (parse_qsl (urlQuery path)) "error" = some e →
      (do_GET path st).2 = some ⟨400, some (failureHtml e)⟩ ∧
      strHasSub e.data (failureHtml e).data = true ∧
      (do_GET path st).1.server_stopped = true ∧
      (do_GET path st).1.auth_code = st.auth_code) ∧
    (env.clientSecrets = .ok cid cs →
      awaitResult env.obs 300 = .gotResult none →
      (main env).returnCode = 1 ∧
      (main env).filesWritten = [] ∧
      (main env).messages =
        preludeMsgs cid ++ ["❌ Authorization failed or was cancelled"]) := by
  constructor
  · intro hyes hcode herr
    have hdo : do_GET path st =
        ({ auth_code := st.auth_code, server_stopped := true },
         some ⟨400, some (failureHtml e)⟩) := by
      unfold do_GET
      rw [hyes]
      simp [hcode, herr]
    rw [hdo]
    exact ⟨rfl, failureHtml_echoes e, rfl, rfl⟩
  · intro h1 h2
    rw [main_ok_eq env cid cs h1, h2]
    exact ⟨rfl, rfl, rfl⟩

/-- C4 (amended, witness): instance combining the Listener serving
`error=denied` and the Orchestrator run that observes the stopped state. -/
theorem C4_denied_generic_failure_witness :
    ((do_GET "/oauth/callback?error=denied" ⟨none, false⟩).2 =
       some ⟨400, some (failureHtml "denied")⟩ ∧
     strHasSub "denied".data (failureHtml "denied").data = true) ∧
    ((main envDenied).returnCode = 1 ∧
     (main envDenied).filesWritten = [] ∧
     (main envDenied).messages =
       preludeMsgs "client-id-1" ++ ["❌ Authorization failed or was cancelled"]) := by
  constructor
  · have h := (C4_denied_generic_failure "denied" "/oauth/callback?error=denied"
      ⟨none, false⟩ envDenied "client-id-1" "client-secret-1").1
      (by decide) (by decide) (by decide)
    exact ⟨h.1, h.2.1⟩
  · exact (C4_denied_generic_failure "denied" "/oauth/callback?error=denied"
      ⟨none, false⟩ envDenied "client-id-1" "client-secret-1").2 rfl rfl

/-- The environment of the port-in-use counterexample run: the Listener
thread died on the bind exception, so the shared state is never written and
every observation stays `(None, False)`. -/
def envPortBusy : Env :=
  { clientSecrets := .ok "client-id-2" "client-secret-2",
    obs := fun _ => (none, false),
    exchange := .transportError "unused", nowUtc := 0 }

/-- A run that fails at the credential-load step, for comparing exit codes. -/
def envNoSecrets : Env :=
  { clientSecrets := .missing,
    obs := fun _ => (none, false),
    exchange := .transportError "unused", nowUtc := 0 }

/-- C5 (counterexample): when the port is already bound, `TCPServer` raises
inside the daemon thread and the Listener serves nothing, but the process
does not exit immediately: the main flow keeps waiting, prints the timeout
failure 300 seconds later, and returns 1 — the same exit code as the
missing-secrets failure, so the exit code is not distinct either. -/
theorem C5_counterexample :
    start_callback_server true ["/oauth/callback?code=abc"] ⟨none, false⟩ = none ∧
    (main envPortBusy).returnCode = 1 ∧
    "❌ Authorization timeout!" ∈ (main envPortBusy).messages ∧
    (main envNoSecrets).returnCode = (main envPortBusy).returnCode := by
  refine ⟨rfl, rfl, by decide, rfl⟩

/-- C5 (amended): binding on a busy port makes `start_callback_server`
raise before serving anything, and the shared state is never touched; the
Orchestrator is not informed and, observing a forever-pending state, fails
only through the 300-second timeout with return code 1 (the code shared by
every failure) and no output files — not an immediate exit with a distinct
code. -/
theorem C5_port_in_use_timeout (reqs : List String) (st : HandlerState)
    (env : Env) (cid cs : String) :
    start_callback_server true reqs st = none ∧
    (env.clientSecrets = .ok cid cs →
      (∀ n, n ≤ 301 → env.obs n = (none, false)) →
      (main env).returnCode = 1 ∧
      "❌ Authorization timeout!" ∈ (main env).messages ∧
      (main env).filesWritten = [] ∧
      (main env).returnCode = (main envNoSecrets).returnCode) := by
  refine ⟨rfl, fun h1 h2 => ?_⟩
  have hw : awaitResult env.obs 300 = .timedOut :=
    awaitResult_timedOut_of_pending env.obs 300 h2
  rw [main_ok_eq env cid cs h1, hw]
  refine ⟨rfl, ?_, rfl, rfl⟩
  simp [mainAfterWait, List.mem_append]

/-- C5 (amended, witness): the busy-port run instance. -/
theorem C5_port_in_use_timeout_witness :
    start_callback_server true ["/oauth/callback?code=abc"] ⟨none, false⟩ = none ∧
    ((main envPortBusy).returnCode = 1 ∧
     "❌ Authorization timeout!" ∈ (main envPortBusy).messages ∧
     (main envPortBusy).filesWritten = [] ∧
     (main envPortBusy).returnCode = (main envNoSecrets).returnCode) :=
  ⟨(C5_port_in_use_timeout ["/oauth/callback?code=abc"] ⟨none, false⟩
      envPortBusy "client-id-2" "client-secret-2").1,
   (C5_port_in_use_timeout ["/oauth/callback?code=abc"] ⟨none, false⟩
      envPortBusy "client-id-2" "client-secret-2").2 rfl (fun _ _ => rfl)⟩

/-- C6 (confirmed): when the parsed token-endpoint body carries an `error`
field, the run returns 1 with no output files written, the printed failure
line carries the `error` value verbatim, and the `error_description` value
is printed when present. -/
theorem C6_token_error_fatal (env : Env) (cid cs c err : String)
    (r : TokenResponseJson)
    (h1 : env.clientSecrets = .ok cid cs)
    (h2 : awaitResult env.obs 300 = .gotResult (some c))
    (h3 : env.exchange = .response r)
    (h4 : r.error = some err) :
    (main env).returnCode = 1 ∧
    (main env).filesWritten = [] ∧
    ("❌ Token exchange error: " ++ err) ∈ (main env).messages ∧
    strHasSub err.data ("❌ Token exchange error: " ++ err).data = true ∧
    (∀ d, r.error_description = some d → ("   " ++ d) ∈ (main env).messages) := by
  rw [main_ok_eq env cid cs h1, h2, h3]
  refine ⟨?_, ?_, ?_, ?_, ?_⟩
  · simp [mainAfterWait, h4]
  · simp [mainAfterWait, h4]
  · simp [mainAfterWait, h4, List.mem_append]
  · have h := strHasSub_surround err.data "❌ Token exchange error: ".data []
    simpa [string_data_append] using h
  · intro d hd
    simp [mainAfterWait, h4, hd, List.mem_append]

/-- The environment of the token-exchange failure run. -/
def envTokenErr : Env :=
  { clientSecrets := .ok "client-id-3" "client-secret-3",
    obs := fun _ => (some "authcode3", false),
    exchange := .response
      { access_token := none, refresh_token := none, expires_in := none,
        error := some "invalid_grant", error_description := some "Bad grant" },
    nowUtc := 0 }

/-- C6 (witness): the `invalid_grant` run instance. -/
theorem C6_token_error_fatal_witness :
    (main envTokenErr).returnCode = 1 ∧
    (main envTokenErr).filesWritten = [] ∧
    ("❌ Token exchange error: " ++ "invalid_grant") ∈ (main envTokenErr).messages ∧
    strHasSub "invalid_grant".data
      ("❌ Token exchange error: " ++ "invalid_grant").data = true ∧
    ("   " ++ "Bad grant") ∈ (main envTokenErr).messages := by
  have h := C6_token_error_fatal envTokenErr "client-id-3" "client-secret-3"
    "authcode3" "invalid_grant"
    { access_token := none, refresh_token := none, expires_in := none,
      error := some "invalid_grant", error_description := some "Bad grant" }
    rfl rfl rfl rfl
  exact ⟨h.1, h.2.1, h.2.2.1, h.2.2.2.1, h.2.2.2.2 "Bad grant" rfl⟩

/-- C7 (confirmed): on a successful exchange the persisted expiry is the
UTC clock at receipt plus the response's `expires_in` (3600 when the field
is absent), rendered as an ISO-8601 timestamp with a `Z` suffix inside the
account config written to the metadata file. -/
theorem C7_expiry_computation (env : Env) (cid cs c tok : String)
    (r : TokenResponseJson)
    (h1 : env.clientSecrets = .ok cid cs)
    (h2 : awaitResult env.obs 300 = .gotResult (some c))
    (h3 : env.exchange = .response r)
    (h4 : r.error = none)
    (h5 : r.access_token = some tok) :
    (main env).accountConfig =
      some (mkAccountConfig (env.nowUtc + r.expires_in.getD 3600)) ∧
    (configPath,
     FileContent.config (mkAccountConfig (env.nowUtc + r.expires_in.getD 3600)))
      ∈ (main env).filesWritten ∧
    (mkAccountConfig (env.nowUtc + r.expires_in.getD 3600)).token_expires_at =
      isoformat (env.nowUtc + r.expires_in.getD 3600) ++ "Z" ∧
    (r.expires_in = none →
      (main env).accountConfig = some (mkAccountConfig (env.nowUtc + 3600))) := by
  rw [main_ok_eq env cid cs h1, h2, h3]
  refine ⟨?_, ?_, rfl, ?_⟩
  · simp [mainAfterWait, h4, h5]
  · simp [mainAfterWait, h4, h5, List.mem_append]
  · intro hexp
    simp [mainAfterWait, h4, h5, hexp]

/-- The environment of the successful end-to-end run. -/
def envSuccess : Env :=
  { clientSecrets := .ok "client-id-4" "client-secret-4",
    obs := fun _ => (some "abc123", false),
    exchange := .response
      { access_token := some "AT1", refresh_token := some "RT1",
        expires_in := some 3600, error := none, error_description := none },
    nowUtc := 1760265000 }

/-- The token response of the successful end-to-end run. -/
def respSuccess : TokenResponseJson :=
  { access_token := some "AT1", refresh_token := some "RT1",
    expires_in := some 3600, error := none, error_description := none }

/-- C7 (witness): the successful run persists `now + 3600` as the expiry. -/
theorem C7_expiry_computation_witness :
    (main envSuccess).accountConfig =
      some (mkAccountConfig (1760265000 + 3600)) ∧
    (configPath, FileContent.config (mkAccountConfig (1760265000 + 3600)))
      ∈ (main envSuccess).filesWritten ∧
    (mkAccountConfig (1760265000 + 3600)).token_expires_at =
      isoformat (1760265000 + 3600) ++ "Z" := by
  have h := C7_expiry_computation envSuccess "client-id-4" "client-secret-4"
    "abc123" "AT1" respSuccess rfl rfl rfl rfl rfl
  exact ⟨h.1, h.2.1, h.2.2.1⟩

/-- C8 (confirmed): the persisted token files hold the base64 text of the
token strings, and base64-decoding that text returns exactly the UTF-8
bytes of the original token received from the token endpoint — the
encoding is reversible. -/
theorem C8_encoding_reversible (env : Env) (cid cs c tok : String)
    (r : TokenResponseJson)
    (h1 : env.clientSecrets = .ok cid cs)
    (h2 : awaitResult env.obs 300 = .gotResult (some c))
    (h3 : env.exchange = .response r)
    (h4 : r.error = none)
    (h5 : r.access_token = some tok) :
    ((accessTokenPath, FileContent.text (b64str tok)) ∈ (main env).filesWritten ∧
     b64decodeChars (b64str tok).data = some (utf8Encode tok)) ∧
    (∀ rt, r.refresh_token = some rt →
      (refreshTokenPath, FileContent.text (b64str rt)) ∈ (main env).filesWritten ∧
      b64decodeChars (b64str rt).data = some (utf8Encode rt)) := by
  rw [main_ok_eq env cid cs h1, h2, h3]
  constructor
  · refine ⟨?_, b64str_roundtrip tok⟩
    simp [mainAfterWait, h4, h5, List.mem_append]
  · intro rt hrt
    refine ⟨?_, b64str_roundtrip rt⟩
    simp [mainAfterWait, h4, h5, hrt, List.mem_append]

/-- C8 (witness): in the successful run the stored texts decode back to
`AT1` and `RT1` exactly. -/
theorem C8_encoding_reversible_witness :
    ((accessTokenPath, FileContent.text (b64str "AT1")) ∈ (main envSuccess).filesWritten ∧
     b64decodeChars (b64str "AT1").data = some (utf8Encode "AT1")) ∧
    ((refreshTokenPath, FileContent.text (b64str "RT1")) ∈ (main envSuccess).filesWritten ∧
     b64decodeChars (b64str "RT1").data = some (utf8Encode "RT1")) := by
  have h := C8_encoding_reversible envSuccess "client-id-4" "client-secret-4"
    "abc123" "AT1" respSuccess rfl rfl rfl rfl rfl
  exact ⟨h.1, h.2 "RT1" rfl⟩

/-- Every branch past the credential load creates the config directory and
produces the same prefix of side effects. -/
theorem mainAfterWait_dir (cid cs : String) (w : WaitResult)
    (exch : ExchangeResult) (now : Nat) :
    (mainAfterWait cid cs w exch now).configDirCreated = true ∧
    (mainAfterWait cid cs w exch now).trace = okTrace := by
  unfold mainAfterWait
  rcases w with _ | (_ | c)
  · exact ⟨rfl, rfl⟩
  · exact ⟨rfl, rfl⟩
  · rcases exch with e | r
    · exact ⟨rfl, rfl⟩
    · rcases hr : r.error with _ | err
      · rcases ha : r.access_token with _ | tok
        · simp [hr, ha]
        · simp [hr, ha]
      · simp [hr]

/-- C9 (confirmed): once the client secrets load, the configuration
directory is created, and it is created before the Listener is started and
before the browser is opened — in every run, whatever the outcome of the
handshake or the exchange. -/
theorem C9_config_dir_created (env : Env) (cid cs : String)
    (h1 : env.clientSecrets = .ok cid cs) :
    (main env).configDirCreated = true ∧
    (main env).trace = [Event.madeConfigDir, Event.startedListener, Event.openedBrowser] := by
  rw [main_ok_eq env cid cs h1]
  have h := mainAfterWait_dir cid cs (awaitResult env.obs 300) env.exchange env.nowUtc
  exact ⟨h.1, h.2⟩

/-- C9 (witness): the directory is created even in runs that then fail —
here the timeout run and the denied run. -/
theorem C9_config_dir_created_witness :
    ((main envPortBusy).configDirCreated = true ∧
     (main envPortBusy).trace =
       [Event.madeConfigDir, Event.startedListener, Event.openedBrowser]) ∧
    ((main envDenied).configDirCreated = true ∧
     (main envDenied).trace =
       [Event.madeConfigDir, Event.startedListener, Event.openedBrowser]) :=
  ⟨C9_config_dir_created envPortBusy "client-id-2" "client-secret-2" rfl,
   C9_config_dir_created envDenied "client-id-1" "client-secret-1" rfl⟩

/-- C10 (confirmed): in every successful run the persisted metadata fields
other than `token_expires_at` are the same literal constants, independent
of the loaded client credentials, the authorization code, and the token
response; no field comes from the authenticated user's identity. -/
theorem C10_metadata_constants (env : Env) (cid cs c tok : String)
    (r : TokenResponseJson)
    (h1 : env.clientSecrets = .ok cid cs)
    (h2 : awaitResult env.obs 300 = .gotResult (some c))
    (h3 : env.exchange = .response r)
    (h4 : r.error = none)
    (h5 : r.access_token = some tok) :
    ∀ cfg, (main env).accountConfig = some cfg →
      cfg.account_id = "gmail_olaf_loken_gmail_com" ∧
      cfg.display_name = "Olaf Krasicki Freund" ∧
      cfg.email_address = "olaf.loken@gmail.com" ∧
      cfg.provider = "gmail" ∧
      cfg.imap_server = "imap.gmail.com" ∧
      cfg.imap_port = 993 ∧
      cfg.smtp_server = "smtp.gmail.com" ∧
      cfg.smtp_port = 587 ∧
      cfg.scopes = ["https://mail.google.com/",
        "https://www.googleapis.com/auth/userinfo.email",
        "https://www.googleapis.com/auth/userinfo.profile"] := by
  intro cfg hcfg
  have h6 : (main env).accountConfig =
      some (mkAccountConfig (env.nowUtc + r.expires_in.getD 3600)) := by
    rw [main_ok_eq env cid cs h1, h2, h3]
    simp [mainAfterWait, h4, h5]
  rw [h6] at hcfg
  obtain rfl : mkAccountConfig (env.nowUtc + r.expires_in.getD 3600) = cfg :=
    Option.some.inj hcfg
  exact ⟨rfl, rfl, rfl, rfl, rfl, rfl, rfl, rfl, rfl⟩

/-- C10 (witness): instance on the successful run. -/
theorem C10_metadata_constants_witness :
    (main envSuccess).accountConfig = some (mkAccountConfig (1760265000 + 3600)) ∧
    (mkAccountConfig (1760265000 + 3600)).account_id = "gmail_olaf_loken_gmail_com" ∧
    (mkAccountConfig (1760265000 + 3600)).provider = "gmail" ∧
    (mkAccountConfig (1760265000 + 3600)).email_address = "olaf.loken@gmail.com" := by
  have h := C10_metadata_constants envSuccess "client-id-4" "client-secret-4"
    "abc123" "AT1" respSuccess rfl rfl rfl rfl rfl
    (mkAccountConfig (1760265000 + 3600)) (by simp [main, mainAfterWait, awaitResult,
      awaitLoop, envSuccess, respSuccess])
  exact ⟨by simp [main, mainAfterWait, awaitResult, awaitLoop, envSuccess, respSuccess],
    h.1, h.2.2.2.1, h.2.2.1⟩
